import Mathlib

/-!
# Course Management System — verification of the enrollment and access-control core

Shallow embedding of the enrollment coordinator (StudentDashboard.tsx),
the admin/instructor course mutations (AdminDashboard, AddCourseModal,
EditCourseModal) with their demo-mode local-storage branches, and the
row-level-security policies of the SQL migration.

Machine numbers of the source (JS numbers holding small integers) are
modelled as `Int`; database rows are lists of records; the store is
explicit state passed through each operation.
-/

namespace CourseMgmt

/-- A row of the `courses` table / the `Course` interface of `types.ts`. -/
structure Course where
  id : String
  name : String
  code : String
  department : String
  instructor : String
  instructor_id : String
  max_capacity : Int
  current_enrollment : Int
  created_at : String
deriving DecidableEq, Repr

/-- A row of the `enrollments` table, restricted to the columns the client
supplies on insert (`course_id`, `student_id`, `enrollment_status`);
store-generated columns (id, timestamps) are omitted. -/
structure Enrollment where
  course_id : String
  student_id : String
  enrollment_status : String
deriving DecidableEq, Repr

/-- A row of the `logs` table; the JSON `details` payload is modelled as a
key/value list. -/
structure LogEntry where
  action : String
  performed_by : String
  details : List (String × String)
deriving DecidableEq, Repr

/-- The Entity Store: the tables the enrollment coordinator touches. -/
structure DB where
  courses : List Course
  enrollments : List Enrollment
  logs : List LogEntry
deriving DecidableEq, Repr

/-- Outcome of an enroll attempt, as distinguished by the client code:
success toast, "course is already full" (capacity check), or the store's
unique-violation code 23505 ("already enrolled"). -/
inductive EnrollResult
  | success
  | capacityExceeded
  | duplicateEnrollment
deriving DecidableEq, Repr

/-- Result of an enroll/drop call: the outcome, the store afterwards, and
the console-error messages emitted on the way. -/
structure EnrollOutcome where
  result : EnrollResult
  db : DB
  console : List String
deriving DecidableEq, Repr

/-- `courses.find(c => c.id === courseId)` — first locally cached course
with the given id. -/
def findCourse (courses : List Course) (courseId : String) : Option Course :=
  courses.find? (fun c => c.id == courseId)

/-- `course && course.current_enrollment >= course.max_capacity`
(StudentDashboard.tsx line 126): the check is skipped when the course is
absent from the local cache. -/
def capacityBlocked : Option Course → Bool
  | some c => decide (c.max_capacity ≤ c.current_enrollment)
  | none => false

/-- The value written by the counter update
(`current_enrollment: course ? course.current_enrollment + 1 : 1`,
StudentDashboard.tsx line 156). -/
def newEnrollmentCount : Option Course → Int
  | some c => c.current_enrollment + 1
  | none => 1

/-- The value written by the drop-side counter update
(`course && course.current_enrollment > 0 ? course.current_enrollment - 1 : 0`,
StudentDashboard.tsx lines 202-204). -/
def droppedCount : Option Course → Int
  | some c => if 0 < c.current_enrollment then c.current_enrollment - 1 else 0
  | none => 0

/-- `supabase.from('courses').update({current_enrollment: n}).eq('id', courseId)`:
set the counter on every row whose id matches. -/
def setEnrollmentCount (courses : List Course) (courseId : String) (n : Int) :
    List Course :=
  courses.map (fun c => if c.id == courseId then { c with current_enrollment := n } else c)

/-- Modelled from the spec: the enrollments table's unique constraint on
`(course_id, student_id)` lives in a migration not present in the sources;
per the spec the store reports a uniqueness violation (code 23505) exactly
when a row for the pair already exists. This predicate is that check. -/
def hasEnrollment (db : DB) (courseId studentId : String) : Bool :=
  db.enrollments.any (fun e => e.course_id == courseId && e.student_id == studentId)

/-- The log row inserted by a successful enroll (StudentDashboard.tsx lines 165-171). -/
def enrollLog (userId courseId : String) : LogEntry :=
  { action := "student_enrolled", performed_by := userId,
    details := [("course_id", courseId), ("student_id", userId)] }

/-- The log row inserted by a drop (StudentDashboard.tsx lines 213-219). -/
def dropLog (userId courseId : String) : LogEntry :=
  { action := "student_dropped", performed_by := userId,
    details := [("course_id", courseId), ("student_id", userId)] }

/-- `enrollInCourse` of StudentDashboard.tsx (lines 111-176), after the
student profile has been ensured: capacity check on the locally cached
`snapshot`, enrollment insert (store-side uniqueness), counter update
(`updateFails` is the oracle for the update call failing, in which case the
error is written to the console and execution continues), log insert. -/
def enrollInCourse (snapshot : List Course) (userId courseId : String)
    (updateFails : Bool) (db : DB) : EnrollOutcome :=
  if capacityBlocked (findCourse snapshot courseId) then
    { result := .capacityExceeded, db := db, console := [] }
  else if hasEnrollment db courseId userId then
    { result := .duplicateEnrollment, db := db, console := [] }
  else
    { result := .success,
      db := { courses :=
                if updateFails then db.courses
                else setEnrollmentCount db.courses courseId
                  (newEnrollmentCount (findCourse snapshot courseId)),
              enrollments := db.enrollments ++
                [{ course_id := courseId, student_id := userId,
                   enrollment_status := "enrolled" }],
              logs := db.logs ++ [enrollLog userId courseId] },
      console :=
        if updateFails then ["Error updating course enrollment count"] else [] }

/-- `dropCourse` of StudentDashboard.tsx (lines 178-224): delete the
enrollment rows for the pair, then unconditionally write the decremented
counter computed from the local snapshot, then insert a log row. -/
def dropCourse (snapshot : List Course) (userId courseId : String)
    (db : DB) : EnrollOutcome :=
  { result := .success,
    db := { courses := setEnrollmentCount db.courses courseId
              (droppedCount (findCourse snapshot courseId)),
            enrollments := db.enrollments.filter
              (fun e => !(e.course_id == courseId && e.student_id == userId)),
            logs := db.logs ++ [dropLog userId courseId] },
    console := [] }

/-- `isDemoUser` (AdminDashboard / AddCourseModal / EditCourseModal): the
three fixed sentinel demo identities, one per role. -/
def isDemoUser (userId : String) : Bool :=
  userId == "11111111-2222-3333-4444-555555555555" ||
  userId == "12345678-1234-1234-1234-123456789012" ||
  userId == "87654321-4321-4321-4321-210987654321"

/-- The two stores visible to the frontend: the Entity Store (Supabase)
and the per-browser demo shadow store (the `demoCourses` / `demoLogs`
localStorage keys). -/
structure Stores where
  entity : DB
  demoCourses : List Course
  demoLogs : List LogEntry
deriving DecidableEq, Repr

/-- Student enroll at the two-store level: StudentDashboard.tsx has no demo
branch, so the operation always acts on the Entity Store and passes the
shadow store through untouched. -/
def enrollStores (snapshot : List Course) (userId courseId : String)
    (updateFails : Bool) (s : Stores) : EnrollResult × Stores :=
  let o := enrollInCourse snapshot userId courseId updateFails s.entity
  (o.result, { s with entity := o.db })

/-- Student drop at the two-store level: likewise no demo branch in
StudentDashboard.tsx. -/
def dropStores (snapshot : List Course) (userId courseId : String)
    (s : Stores) : EnrollResult × Stores :=
  let o := dropCourse snapshot userId courseId s.entity
  (o.result, { s with entity := o.db })

/-- `deleteCourse` of AdminDashboard (unnamed/part_000 lines 112-154): demo
users remove the course from `demoCourses` and push a log entry onto
`demoLogs` (kept to the 20 most recent); real users delete the row from the
Entity Store and append a `course_deleted` log row. -/
def deleteCourse (userId courseId : String) (s : Stores) : Stores :=
  if isDemoUser userId then
    { s with
      demoCourses := s.demoCourses.filter (fun c => !(c.id == courseId)),
      demoLogs :=
        (({ action := "course_deleted", performed_by := userId,
            details := [("course_id", courseId)] } : LogEntry) :: s.demoLogs).take 20 }
  else
    { s with entity :=
      { s.entity with
        courses := s.entity.courses.filter (fun c => !(c.id == courseId)),
        logs := s.entity.logs ++
          [{ action := "course_deleted", performed_by := userId,
             details := [("course_id", courseId)] }] } }

/-- `handleSubmit` of AddCourseModal (store part, lines 90-155): demo users
append the generated course to `demoCourses` (no log row); real users
insert the course into the Entity Store and append a `course_created` log
row. -/
def addCourse (userId : String) (c : Course) (s : Stores) : Stores :=
  if isDemoUser userId then
    { s with demoCourses := s.demoCourses ++ [c] }
  else
    { s with entity :=
      { s.entity with
        courses := s.entity.courses ++ [c],
        logs := s.entity.logs ++
          [{ action := "course_created", performed_by := userId,
             details := [("course_id", c.id), ("course_name", c.name),
                         ("instructor_id", c.instructor_id)] }] } }

/-- The fields written by the course update of EditCourseModal. -/
structure CourseUpdate where
  name : String
  code : String
  department : String
  instructor_id : String
  instructor : String
  max_capacity : Int
deriving DecidableEq, Repr

/-- The `{...c, ...updates}` spread applied to a matching course row. -/
def applyCourseUpdate (u : CourseUpdate) (c : Course) : Course :=
  { c with name := u.name, code := u.code, department := u.department,
           instructor_id := u.instructor_id, instructor := u.instructor,
           max_capacity := u.max_capacity }

/-- `handleSubmit` of EditCourseModal (store part, unnamed/part_001 lines
111-176): demo users update the row inside `demoCourses`; real users
update the Entity Store row and append a `course_updated` log row. -/
def updateCourse (userId courseId prevName : String) (u : CourseUpdate)
    (s : Stores) : Stores :=
  if isDemoUser userId then
    { s with demoCourses := (s.demoCourses.map
        (fun c => if c.id == courseId then applyCourseUpdate u c else c)) }
  else
    { s with entity :=
      { s.entity with
        courses := (s.entity.courses.map
          (fun c => if c.id == courseId then applyCourseUpdate u c else c)),
        logs := s.entity.logs ++
          [{ action := "course_updated", performed_by := userId,
             details := [("course_id", courseId), ("previous_name", prevName),
                         ("new_name", u.name)] }] } }

/-! ## Row-level security policies (migration 20250311165250_turquoise_bird.sql) -/

/-- A row of `auth.users` as seen by the helper functions: the identity and
the `raw_user_meta_data->>'role'` attribute (NULL modelled as `none`). -/
structure AuthUser where
  id : String
  metaRole : Option String
deriving DecidableEq, Repr

/-- A row of `user_profiles`, restricted to the columns returned by
`get_user_profile_direct`. -/
structure UserProfile where
  id : String
  email : String
  name : String
  role : String
deriving DecidableEq, Repr

/-- A row of `students`, restricted to the columns the client writes. -/
structure StudentRow where
  id : String
  name : String
  email : String
  academic_status : String
deriving DecidableEq, Repr

/-- `is_admin_from_metadata()`: EXISTS a row of `auth.users` whose id is the
caller's uid with role metadata 'admin'. -/
def is_admin_from_metadata (uid : String) (users : List AuthUser) : Bool :=
  users.any (fun u => uid == u.id && u.metaRole == some "admin")

/-- `is_instructor_from_metadata()`. -/
def is_instructor_from_metadata (uid : String) (users : List AuthUser) : Bool :=
  users.any (fun u => uid == u.id && u.metaRole == some "instructor")

/-- `is_student_from_metadata()`. -/
def is_student_from_metadata (uid : String) (users : List AuthUser) : Bool :=
  users.any (fun u => uid == u.id && u.metaRole == some "student")

/-- Policy `allow_users_to_read_own_profile` (SELECT on `user_profiles`,
TO authenticated): `USING (id = auth.uid() OR is_admin_from_metadata())`. -/
def allow_users_to_read_own_profile (uid : String) (users : List AuthUser)
    (row : UserProfile) : Bool :=
  row.id == uid || is_admin_from_metadata uid users

/-- Policy `allow_students_to_read_own_record` (SELECT on `students`,
TO authenticated): `USING (id = auth.uid() OR is_admin_from_metadata() OR
is_instructor_from_metadata())`. -/
def allow_students_to_read_own_record (uid : String) (users : List AuthUser)
    (row : StudentRow) : Bool :=
  row.id == uid || is_admin_from_metadata uid users ||
    is_instructor_from_metadata uid users

/-! ## Helper lemmas -/

/-- Looking a course up after the counter update finds the same row with the
counter overwritten. -/
lemma findCourse_setEnrollmentCount (courses : List Course) (courseId : String)
    (n : Int) :
    findCourse (setEnrollmentCount courses courseId n) courseId =
      (findCourse courses courseId).map
        (fun c => { c with current_enrollment := n }) := by
  induction courses with
  | nil => rfl
  | cons c cs ih =>
    simp only [findCourse, setEnrollmentCount, List.map_cons] at *
    cases h : c.id == courseId with
    | true =>
      rw [if_pos rfl, List.find?_cons_of_pos _ (by simpa using h)]
      have hc : List.find? (fun x : Course => x.id == courseId) (c :: cs) =
          some c := List.find?_cons_of_pos _ h
      rw [hc]
      rfl
    | false =>
      rw [if_neg (by simp), List.find?_cons_of_neg _ (by simp [h]),
        List.find?_cons_of_neg _ (by simp [h])]
      exact ih

/-- Rows whose id differs from the updated id are untouched by the counter
update; every row with the updated id carries the written value. -/
lemma mem_setEnrollmentCount (courses : List Course) (courseId : String)
    (n : Int) (c : Course) (hc : c ∈ setEnrollmentCount courses courseId n)
    (hid : c.id = courseId) : c.current_enrollment = n := by
  unfold setEnrollmentCount at hc
  rcases List.mem_map.mp hc with ⟨c₀, _, hmap⟩
  by_cases h : c₀.id == courseId
  · simp [h] at hmap
    rw [← hmap]
  · simp [h] at hmap
    rw [← hmap] at hid
    exact absurd (by simp [hid]) h

/-- The caller's role-claim check of the SECURITY DEFINER helpers, decided
by the caller's (unique) entry in `auth.users`. -/
lemma any_role_iff (uid r : String) (users : List AuthUser)
    (role : Option String)
    (hmem : AuthUser.mk uid role ∈ users)
    (huniq : ∀ u ∈ users, u.id = uid → u.metaRole = role) :
    (users.any (fun u => uid == u.id && u.metaRole == some r)) = true ↔
      role = some r := by
  rw [List.any_eq_true]
  constructor
  · rintro ⟨u, hu, hpred⟩
    rw [Bool.and_eq_true, beq_iff_eq, beq_iff_eq] at hpred
    have := huniq u hu hpred.1.symm
    rw [this] at hpred
    exact hpred.2
  · intro hr
    exact ⟨AuthUser.mk uid role, hmem, by simp [hr]⟩

/-! ## Claim theorems -/

/-- C1: for a course present in the store, with the local snapshot agreeing
with the store, and a student not yet enrolled, the enroll operation
succeeds iff current_enrollment < max_capacity at the time the capacity
check is evaluated; after a successful enroll the course's
current_enrollment is greater by exactly 1 and an Enrollment row for the
pair exists. -/
theorem c1_enroll_fresh_iff_capacity (userId courseId : String) (c : Course)
    (db : DB)
    (hsnap : findCourse db.courses courseId = some c)
    (hfresh : hasEnrollment db courseId userId = false) :
    ((enrollInCourse db.courses userId courseId false db).result =
        EnrollResult.success ↔ c.current_enrollment < c.max_capacity) ∧
    ((enrollInCourse db.courses userId courseId false db).result =
        EnrollResult.success →
      (findCourse (enrollInCourse db.courses userId courseId false db).db.courses
          courseId).map Course.current_enrollment =
        some (c.current_enrollment + 1) ∧
      ({ course_id := courseId, student_id := userId,
         enrollment_status := "enrolled" } : Enrollment) ∈
        (enrollInCourse db.courses userId courseId false db).db.enrollments) := by
  unfold enrollInCourse
  rw [hsnap]
  by_cases hcap : c.max_capacity ≤ c.current_enrollment
  · simp [capacityBlocked, hcap]
  · simp [capacityBlocked, hcap, hfresh, newEnrollmentCount,
      findCourse_setEnrollmentCount, hsnap]
    omega

/-- C1 witness: a concrete fresh enrollment in a course with one seat
free succeeds and bumps the counter to 1. -/
theorem c1_enroll_fresh_iff_capacity_witness :
    (enrollInCourse
        [⟨"c1", "Intro", "CS101", "CS", "Ins", "i1", 2, 0, "t0"⟩]
        "s1" "c1" false
        ⟨[⟨"c1", "Intro", "CS101", "CS", "Ins", "i1", 2, 0, "t0"⟩], [], []⟩).result =
      EnrollResult.success := by
  exact (c1_enroll_fresh_iff_capacity "s1" "c1"
    ⟨"c1", "Intro", "CS101", "CS", "Ins", "i1", 2, 0, "t0"⟩
    ⟨[⟨"c1", "Intro", "CS101", "CS", "Ins", "i1", 2, 0, "t0"⟩], [], []⟩
    (by decide) (by decide)).1.mpr (by decide)

/-- C4: when the locally known snapshot reports the course at or over
capacity, the enroll call fails with CapacityExceeded and performs no
writes at all: the store (enrollments, courses, logs) is returned
unchanged. -/
theorem c4_capacity_blocked_no_writes (snapshot : List Course)
    (userId courseId : String) (updateFails : Bool) (db : DB) (c : Course)
    (hfind : findCourse snapshot courseId = some c)
    (hfull : c.max_capacity ≤ c.current_enrollment) :
    enrollInCourse snapshot userId courseId updateFails db =
      { result := EnrollResult.capacityExceeded, db := db, console := [] } := by
  unfold enrollInCourse
  rw [hfind]
  simp [capacityBlocked, hfull]

/-- C4 witness: a concrete full course (1/1) rejects the enrollment and
leaves the store untouched. -/
theorem c4_capacity_blocked_no_writes_witness :
    enrollInCourse [⟨"c1", "Intro", "CS101", "CS", "Ins", "i1", 1, 1, "t0"⟩]
        "s1" "c1" false
        ⟨[⟨"c1", "Intro", "CS101", "CS", "Ins", "i1", 1, 1, "t0"⟩], [], []⟩ =
      { result := EnrollResult.capacityExceeded,
        db := ⟨[⟨"c1", "Intro", "CS101", "CS", "Ins", "i1", 1, 1, "t0"⟩], [], []⟩,
        console := [] } := by
  exact c4_capacity_blocked_no_writes _ "s1" "c1" false _
    ⟨"c1", "Intro", "CS101", "CS", "Ins", "i1", 1, 1, "t0"⟩
    (by decide) (by decide)

/-- C5: when the courseId is absent from the locally cached course list
the capacity check is skipped — the call can never fail with
CapacityExceeded whatever the stored counters are — and on a successful
insert the counter update writes the constant 1 over every stored row with
that id, regardless of its previous value. -/
theorem c5_uncached_course_counter_overwritten (snapshot : List Course)
    (userId courseId : String) (updateFails : Bool) (db : DB)
    (hnone : findCourse snapshot courseId = none) :
    ((enrollInCourse snapshot userId courseId updateFails db).result ≠
        EnrollResult.capacityExceeded) ∧
    (hasEnrollment db courseId userId = false →
      (enrollInCourse snapshot userId courseId false db).result =
          EnrollResult.success ∧
      ∀ c' ∈ (enrollInCourse snapshot userId courseId false db).db.courses,
        c'.id = courseId → c'.current_enrollment = 1) := by
  unfold enrollInCourse
  rw [hnone]
  constructor
  · cases hdup : hasEnrollment db courseId userId <;>
      simp [capacityBlocked, hdup]
  · intro hfresh
    simp [capacityBlocked, hfresh, newEnrollmentCount]
    intro c' hc'
    exact mem_setEnrollmentCount db.courses courseId 1 c' hc'

/-- C5 witness: with an empty local cache, enrolling into a stored course
sitting at 7/3 (over capacity) succeeds and resets its counter to 1. -/
theorem c5_uncached_course_counter_overwritten_witness :
    (enrollInCourse [] "s1" "c1" false
        ⟨[⟨"c1", "Intro", "CS101", "CS", "Ins", "i1", 3, 7, "t0"⟩], [], []⟩).result =
      EnrollResult.success := by
  exact ((c5_uncached_course_counter_overwritten [] "s1" "c1" false
    ⟨[⟨"c1", "Intro", "CS101", "CS", "Ins", "i1", 3, 7, "t0"⟩], [], []⟩
    (by decide)).2 (by decide)).1

/-- At most one enrollment row per (course, student) pair. -/
def pairsUnique (db : DB) : Prop :=
  (db.enrollments.map (fun e => (e.course_id, e.student_id))).Nodup

/-- The drop-side counter value is never negative, whatever the snapshot
holds. -/
lemma droppedCount_nonneg (o : Option Course) : 0 ≤ droppedCount o := by
  cases o with
  | none => simp [droppedCount]
  | some c =>
    simp only [droppedCount]
    split <;> omega

/-- C2 counterexample: a second enroll attempt by an already-enrolled
student does not fail with DuplicateEnrollment when the course is full —
the capacity check fires first and reports CapacityExceeded. -/
theorem c2_counterexample_full_duplicate :
    hasEnrollment
        ⟨[⟨"c1", "Intro", "CS101", "CS", "Ins", "i1", 1, 1, "t0"⟩],
         [⟨"c1", "s1", "enrolled"⟩], []⟩ "c1" "s1" = true ∧
    (enrollInCourse [⟨"c1", "Intro", "CS101", "CS", "Ins", "i1", 1, 1, "t0"⟩]
        "s1" "c1" false
        ⟨[⟨"c1", "Intro", "CS101", "CS", "Ins", "i1", 1, 1, "t0"⟩],
         [⟨"c1", "s1", "enrolled"⟩], []⟩).result ≠
      EnrollResult.duplicateEnrollment ∧
    (enrollInCourse [⟨"c1", "Intro", "CS101", "CS", "Ins", "i1", 1, 1, "t0"⟩]
        "s1" "c1" false
        ⟨[⟨"c1", "Intro", "CS101", "CS", "Ins", "i1", 1, 1, "t0"⟩],
         [⟨"c1", "s1", "enrolled"⟩], []⟩).result =
      EnrollResult.capacityExceeded := by
  decide

/-- C2 (amended): enroll preserves the at-most-one-row-per-pair invariant;
an enroll attempt for an already-enrolled pair inserts nothing and leaves
the whole store (counter included) unchanged, and it fails with
DuplicateEnrollment whenever the capacity check does not already reject
it. -/
theorem c2_duplicate_enroll_rejected (snapshot : List Course)
    (userId courseId : String) (updateFails : Bool) (db : DB) :
    (hasEnrollment db courseId userId = true →
      (enrollInCourse snapshot userId courseId updateFails db).db = db ∧
      (capacityBlocked (findCourse snapshot courseId) = false →
        (enrollInCourse snapshot userId courseId updateFails db).result =
          EnrollResult.duplicateEnrollment)) ∧
    (pairsUnique db →
      pairsUnique (enrollInCourse snapshot userId courseId updateFails db).db) := by
  constructor
  · intro hdup
    unfold enrollInCourse
    cases hcap : capacityBlocked (findCourse snapshot courseId) <;>
      simp [hcap, hdup]
  · intro hnd
    unfold enrollInCourse
    cases hcap : capacityBlocked (findCourse snapshot courseId) with
    | true => simpa [hcap] using hnd
    | false =>
      cases hdup : hasEnrollment db courseId userId with
      | true => simpa [hcap, hdup] using hnd
      | false =>
        simp only [hcap, hdup, Bool.false_eq_true, if_false]
        unfold pairsUnique at *
        rw [List.map_append, List.nodup_append]
        refine ⟨hnd, by simp, ?_⟩
        intro p hp hp'
        simp only [List.map_cons, List.map_nil, List.mem_singleton] at hp'
        subst hp'
        rcases List.mem_map.mp hp with ⟨e, he, hpair⟩
        rw [Prod.mk.injEq] at hpair
        unfold hasEnrollment at hdup
        rw [List.any_eq_false] at hdup
        have := hdup e he
        simp [hpair.1, hpair.2] at this

/-- C2 witness: an already-enrolled student re-enrolling in a course with
seats free gets DuplicateEnrollment and the store is unchanged. -/
theorem c2_duplicate_enroll_rejected_witness :
    (enrollInCourse [⟨"c1", "Intro", "CS101", "CS", "Ins", "i1", 5, 1, "t0"⟩]
        "s1" "c1" false
        ⟨[⟨"c1", "Intro", "CS101", "CS", "Ins", "i1", 5, 1, "t0"⟩],
         [⟨"c1", "s1", "enrolled"⟩], []⟩).result =
      EnrollResult.duplicateEnrollment := by
  exact ((c2_duplicate_enroll_rejected
    [⟨"c1", "Intro", "CS101", "CS", "Ins", "i1", 5, 1, "t0"⟩] "s1" "c1" false
    ⟨[⟨"c1", "Intro", "CS101", "CS", "Ins", "i1", 5, 1, "t0"⟩],
     [⟨"c1", "s1", "enrolled"⟩], []⟩).1 (by decide)).2 (by decide)

/-- C3 counterexample: dropping a pair that is not enrolled is not a
store-level no-op — with the course at 5/10 and no enrollment row for the
pair, the drop leaves the enrollments alone but writes 4 into
current_enrollment and appends a log row. -/
theorem c3_counterexample_drop_decrements :
    hasEnrollment
        ⟨[⟨"c1", "Intro", "CS101", "CS", "Ins", "i1", 10, 5, "t0"⟩], [], []⟩
        "c1" "s1" = false ∧
    (findCourse (dropCourse
        [⟨"c1", "Intro", "CS101", "CS", "Ins", "i1", 10, 5, "t0"⟩] "s1" "c1"
        ⟨[⟨"c1", "Intro", "CS101", "CS", "Ins", "i1", 10, 5, "t0"⟩], [], []⟩).db.courses
        "c1").map Course.current_enrollment = some 4 ∧
    (dropCourse
        [⟨"c1", "Intro", "CS101", "CS", "Ins", "i1", 10, 5, "t0"⟩] "s1" "c1"
        ⟨[⟨"c1", "Intro", "CS101", "CS", "Ins", "i1", 10, 5, "t0"⟩], [], []⟩).db.logs ≠
      [] := by
  decide

/-- C3 (amended): dropping a non-enrolled pair deletes no enrollment row,
but still overwrites the course's counter with the snapshot value minus
one (floored at zero, so the counter written is never below 0) and appends
a log entry. -/
theorem c3_drop_non_enrolled (snapshot : List Course)
    (userId courseId : String) (db : DB) :
    (hasEnrollment db courseId userId = false →
      (dropCourse snapshot userId courseId db).db.enrollments =
        db.enrollments) ∧
    (∀ c' ∈ (dropCourse snapshot userId courseId db).db.courses,
      c'.id = courseId → 0 ≤ c'.current_enrollment) ∧
    (∀ c, findCourse snapshot courseId = some c → 0 < c.current_enrollment →
      ∀ c' ∈ (dropCourse snapshot userId courseId db).db.courses,
        c'.id = courseId → c'.current_enrollment = c.current_enrollment - 1) ∧
    ((dropCourse snapshot userId courseId db).db.logs =
      db.logs ++ [dropLog userId courseId]) := by
  refine ⟨?_, ?_, ?_, rfl⟩
  · intro hfresh
    unfold dropCourse
    refine List.filter_eq_self.mpr ?_
    intro e he
    unfold hasEnrollment at hfresh
    rw [List.any_eq_false] at hfresh
    cases hpe : (e.course_id == courseId && e.student_id == userId) with
    | true => exact absurd hpe (hfresh e he)
    | false => simp [hpe]
  · intro c' hc' hid
    have := mem_setEnrollmentCount db.courses courseId
      (droppedCount (findCourse snapshot courseId)) c' hc' hid
    rw [this]
    exact droppedCount_nonneg _
  · intro c hc hpos c' hc' hid
    have := mem_setEnrollmentCount db.courses courseId
      (droppedCount (findCourse snapshot courseId)) c' hc' hid
    rw [this, hc]
    simp [droppedCount, hpos]

/-- C3 witness: a concrete non-enrolled drop leaves the (empty) enrollment
list unchanged and the written counter non-negative. -/
theorem c3_drop_non_enrolled_witness :
    (dropCourse [⟨"c1", "Intro", "CS101", "CS", "Ins", "i1", 10, 5, "t0"⟩]
        "s1" "c1"
        ⟨[⟨"c1", "Intro", "CS101", "CS", "Ins", "i1", 10, 5, "t0"⟩], [], []⟩).db.enrollments =
      [] := by
  exact (c3_drop_non_enrolled
    [⟨"c1", "Intro", "CS101", "CS", "Ins", "i1", 10, 5, "t0"⟩] "s1" "c1"
    ⟨[⟨"c1", "Intro", "CS101", "CS", "Ins", "i1", 10, 5, "t0"⟩], [], []⟩).1
    (by decide)

/-- C9: when the enrollment insert succeeds but the counter update fails,
the inserted row stays (no rollback), the course table is left as it was,
the failure is only written to the console, the log entry is still
appended, and the operation reports success. -/
theorem c9_counter_update_failure_tolerated (snapshot : List Course)
    (userId courseId : String) (db : DB)
    (hfresh : hasEnrollment db courseId userId = false)
    (hnb : capacityBlocked (findCourse snapshot courseId) = false) :
    (enrollInCourse snapshot userId courseId true db).result =
        EnrollResult.success ∧
    ({ course_id := courseId, student_id := userId,
       enrollment_status := "enrolled" } : Enrollment) ∈
      (enrollInCourse snapshot userId courseId true db).db.enrollments ∧
    (enrollInCourse snapshot userId courseId true db).db.courses =
      db.courses ∧
    (enrollInCourse snapshot userId courseId true db).console =
      ["Error updating course enrollment count"] ∧
    (enrollInCourse snapshot userId courseId true db).db.logs =
      db.logs ++ [enrollLog userId courseId] := by
  unfold enrollInCourse
  simp [hnb, hfresh]

/-- C9 witness: a concrete enroll with the counter update failing still
reports success and keeps the inserted row. -/
theorem c9_counter_update_failure_tolerated_witness :
    (enrollInCourse [⟨"c1", "Intro", "CS101", "CS", "Ins", "i1", 2, 0, "t0"⟩]
        "s1" "c1" true
        ⟨[⟨"c1", "Intro", "CS101", "CS", "Ins", "i1", 2, 0, "t0"⟩], [], []⟩).result =
      EnrollResult.success := by
  exact (c9_counter_update_failure_tolerated
    [⟨"c1", "Intro", "CS101", "CS", "Ins", "i1", 2, 0, "t0"⟩] "s1" "c1"
    ⟨[⟨"c1", "Intro", "CS101", "CS", "Ins", "i1", 2, 0, "t0"⟩], [], []⟩
    (by decide) (by decide)).1

/-- C6: a read of a `user_profiles` row is permitted exactly when the
caller's id equals the row's id or the caller's role claim (the metadata
role of its `auth.users` entry) is admin — so an admin reads any Profile
row and a student only its own. -/
theorem c6_profile_read_policy (uid : String) (role : Option String)
    (users : List AuthUser) (row : UserProfile)
    (hmem : AuthUser.mk uid role ∈ users)
    (huniq : ∀ u ∈ users, u.id = uid → u.metaRole = role) :
    allow_users_to_read_own_profile uid users row = true ↔
      (row.id = uid ∨ role = some "admin") := by
  unfold allow_users_to_read_own_profile is_admin_from_metadata
  rw [Bool.or_eq_true, beq_iff_eq,
    any_role_iff uid "admin" users role hmem huniq]

/-- C6 witness: a caller with the admin role claim may read another
identity's profile row. -/
theorem c6_profile_read_policy_witness :
    allow_users_to_read_own_profile "a1" [⟨"a1", some "admin"⟩]
      ⟨"u2", "e@x", "N", "student"⟩ = true := by
  exact (c6_profile_read_policy "a1" (some "admin") [⟨"a1", some "admin"⟩]
    ⟨"u2", "e@x", "N", "student"⟩ (by simp)
    (by intro u hu h; rw [List.mem_singleton] at hu; subst hu; rfl)).mpr
    (Or.inr rfl)

/-- C7: a read of a `students` row is permitted exactly when the caller's
id equals the row's id or the caller's role claim is admin or instructor;
in particular a caller with the student role claim reads a row iff it is
its own. -/
theorem c7_student_read_policy (uid : String) (role : Option String)
    (users : List AuthUser) (row : StudentRow)
    (hmem : AuthUser.mk uid role ∈ users)
    (huniq : ∀ u ∈ users, u.id = uid → u.metaRole = role) :
    (allow_students_to_read_own_record uid users row = true ↔
      (row.id = uid ∨ role = some "admin" ∨ role = some "instructor")) ∧
    (role = some "student" →
      (allow_students_to_read_own_record uid users row = true ↔
        row.id = uid)) := by
  have hiff : allow_students_to_read_own_record uid users row = true ↔
      (row.id = uid ∨ role = some "admin" ∨ role = some "instructor") := by
    unfold allow_students_to_read_own_record is_admin_from_metadata
      is_instructor_from_metadata
    rw [Bool.or_eq_true, Bool.or_eq_true, beq_iff_eq,
      any_role_iff uid "admin" users role hmem huniq,
      any_role_iff uid "instructor" users role hmem huniq, or_assoc]
  refine ⟨hiff, ?_⟩
  intro hst
  rw [hiff, hst]
  constructor
  · rintro (h | h | h)
    · exact h
    · exact absurd h (by decide)
    · exact absurd h (by decide)
  · exact Or.inl

/-- C7 witness: a student-role caller is denied on another student's row
(and, contrapositively via the iff, allowed on its own). -/
theorem c7_student_read_policy_witness :
    allow_students_to_read_own_record "s1" [⟨"s1", some "student"⟩]
      ⟨"s2", "N", "e@x", "active"⟩ = false := by
  have h := ((c7_student_read_policy "s1" (some "student")
    [⟨"s1", some "student"⟩] ⟨"s2", "N", "e@x", "active"⟩ (by simp)
    (by intro u hu hx; rw [List.mem_singleton] at hu; subst hu; rfl)).2 rfl)
  cases hb : allow_students_to_read_own_record "s1" [⟨"s1", some "student"⟩]
      ⟨"s2", "N", "e@x", "active"⟩ with
  | false => rfl
  | true => exact absurd (h.mp hb) (by decide)

/-- C8 counterexample: the student dashboard's enroll has no demo branch —
the demo-student sentinel identity enrolls straight against the Entity
Store (which changes), while the shadow store stays untouched. -/
theorem c8_counterexample_demo_student_enroll :
    isDemoUser "12345678-1234-1234-1234-123456789012" = true ∧
    (enrollStores [⟨"c1", "Intro", "CS101", "CS", "Ins", "i1", 30, 0, "t0"⟩]
        "12345678-1234-1234-1234-123456789012" "c1" false
        ⟨⟨[⟨"c1", "Intro", "CS101", "CS", "Ins", "i1", 30, 0, "t0"⟩], [], []⟩,
          [], []⟩).2.entity ≠
      ⟨[⟨"c1", "Intro", "CS101", "CS", "Ins", "i1", 30, 0, "t0"⟩], [], []⟩ ∧
    (enrollStores [⟨"c1", "Intro", "CS101", "CS", "Ins", "i1", 30, 0, "t0"⟩]
        "12345678-1234-1234-1234-123456789012" "c1" false
        ⟨⟨[⟨"c1", "Intro", "CS101", "CS", "Ins", "i1", 30, 0, "t0"⟩], [], []⟩,
          [], []⟩).2.demoCourses = [] := by
  decide

/-- C8 (amended): the course create/update/delete handlers do branch on the
sentinel identities — sentinels write only the shadow store and
non-sentinels never touch it — but the student dashboard's enroll and drop
have no demo branch: they always act on the Entity Store and never on the
shadow store, sentinel caller or not. -/
theorem c8_demo_routing (userId courseId prevName : String) (c : Course)
    (u : CourseUpdate) (snapshot : List Course) (updateFails : Bool)
    (s : Stores) :
    (isDemoUser userId = true →
      (deleteCourse userId courseId s).entity = s.entity ∧
      (addCourse userId c s).entity = s.entity ∧
      (updateCourse userId courseId prevName u s).entity = s.entity) ∧
    (isDemoUser userId = false →
      (deleteCourse userId courseId s).demoCourses = s.demoCourses ∧
      (deleteCourse userId courseId s).demoLogs = s.demoLogs ∧
      (addCourse userId c s).demoCourses = s.demoCourses ∧
      (addCourse userId c s).demoLogs = s.demoLogs ∧
      (updateCourse userId courseId prevName u s).demoCourses =
        s.demoCourses ∧
      (updateCourse userId courseId prevName u s).demoLogs = s.demoLogs) ∧
    ((enrollStores snapshot userId courseId updateFails s).2.demoCourses =
        s.demoCourses ∧
      (enrollStores snapshot userId courseId updateFails s).2.demoLogs =
        s.demoLogs ∧
      (dropStores snapshot userId courseId s).2.demoCourses =
        s.demoCourses ∧
      (dropStores snapshot userId courseId s).2.demoLogs = s.demoLogs) := by
  refine ⟨?_, ?_, rfl, rfl, rfl, rfl⟩
  · intro h
    unfold deleteCourse addCourse updateCourse
    simp [h]
  · intro h
    unfold deleteCourse addCourse updateCourse
    simp [h]

/-- C8 witness: the admin sentinel's course deletion leaves the Entity
Store untouched. -/
theorem c8_demo_routing_witness :
    (deleteCourse "11111111-2222-3333-4444-555555555555" "c1"
        ⟨⟨[], [], []⟩, [], []⟩).entity = ⟨[], [], []⟩ := by
  exact ((c8_demo_routing "11111111-2222-3333-4444-555555555555" "c1" "p"
    ⟨"c1", "N", "CS1", "CS", "I", "i1", 10, 0, "t"⟩
    ⟨"N", "CS1", "CS", "i1", "I", 10⟩ [] false
    ⟨⟨[], [], []⟩, [], []⟩).1 (by decide)).1

/-- C10: every modelled operation only appends to the Entity Store's
ActionLog — each one leaves the existing log rows as a prefix of the
resulting log, never updating or deleting a row. -/
theorem c10_logs_append_only (snapshot : List Course)
    (userId courseId prevName : String) (c : Course) (u : CourseUpdate)
    (updateFails : Bool) (s : Stores) :
    (∃ t, (enrollStores snapshot userId courseId updateFails s).2.entity.logs =
      s.entity.logs ++ t) ∧
    (∃ t, (dropStores snapshot userId courseId s).2.entity.logs =
      s.entity.logs ++ t) ∧
    (∃ t, (deleteCourse userId courseId s).entity.logs =
      s.entity.logs ++ t) ∧
    (∃ t, (addCourse userId c s).entity.logs = s.entity.logs ++ t) ∧
    (∃ t, (updateCourse userId courseId prevName u s).entity.logs =
      s.entity.logs ++ t) := by
  refine ⟨?_, ⟨[dropLog userId courseId], rfl⟩, ?_, ?_, ?_⟩
  · unfold enrollStores enrollInCourse
    cases hcap : capacityBlocked (findCourse snapshot courseId) with
    | true => exact ⟨[], by simp [hcap]⟩
    | false =>
      cases hdup : hasEnrollment s.entity courseId userId with
      | true => exact ⟨[], by simp [hcap, hdup]⟩
      | false => exact ⟨[enrollLog userId courseId], by simp [hcap, hdup]⟩
  · unfold deleteCourse
    cases h : isDemoUser userId with
    | true => exact ⟨[], by simp [h]⟩
    | false =>
      exact ⟨[⟨"course_deleted", userId, [("course_id", courseId)]⟩],
        by simp [h]⟩
  · unfold addCourse
    cases h : isDemoUser userId with
    | true => exact ⟨[], by simp [h]⟩
    | false =>
      exact ⟨[⟨"course_created", userId,
        [("course_id", c.id), ("course_name", c.name),
         ("instructor_id", c.instructor_id)]⟩], by simp [h]⟩
  · unfold updateCourse
    cases h : isDemoUser userId with
    | true => exact ⟨[], by simp [h]⟩
    | false =>
      exact ⟨[⟨"course_updated", userId,
        [("course_id", courseId), ("previous_name", prevName),
         ("new_name", u.name)]⟩], by simp [h]⟩

end CourseMgmt
